import Mathlib

set_option maxHeartbeats 1000000

namespace SkiaGold

/-! Shallow embedding of `content/test/gpu/gpu_tests/skia_gold_integration_test_base.py`.
Python optional values become `Option`, Python exceptions become `Except`/`Option`
results, dates become day ordinals (`Nat`), and the class-level mutable cache
becomes explicit state passing on `ClassState`. -/

deriving instance DecidableEq for Except

/-- Truthiness of an optional Python integer: `None` and `0` are falsy. -/
def natTruthy : Option Nat → Bool
  | none => false
  | some n => n != 0

/-- Truthiness of an optional Python string: `None` and the empty string are falsy. -/
def strTruthy : Option String → Bool
  | none => false
  | some s => s != ""

/-- The lowercase hexadecimal digit for a value below 16, as Python `hex` prints it. -/
def hexDigit (n : Nat) : Char :=
  if n < 10 then Char.ofNat (48 + n) else Char.ofNat (87 + n)

/-- Hexadecimal digits with an explicit fuel bound, so that the recursion is
structural and computable by the kernel; one unit of fuel is spent per digit. -/
def hexDigitsAux : Nat → Nat → List Char
  | 0, _ => []
  | fuel + 1, n => if n = 0 then [] else hexDigitsAux fuel (n / 16) ++ [hexDigit (n % 16)]

/-- Hexadecimal digits of `n`, most significant first; empty for `0`.
`n` itself is always enough fuel since a number needs at most `n` digits. -/
def hexDigits (n : Nat) : List Char := hexDigitsAux n n

/-- Python `hex(n)` for a nonnegative integer: `"0x"` followed by lowercase digits. -/
def pyHex (n : Nat) : String :=
  if n = 0 then "0x0" else "0x" ++ String.mk (hexDigits n)

/-- `_ToHex` from the source: `hex(int(num))`. -/
def toHex (num : Nat) : String := pyHex num

/-- `_ToHexOrNone` from the source: the string `"None"` for `None`, else `hex`. -/
def toHexOrNone (num : Option Nat) : String :=
  match num with
  | none => "None"
  | some n => toHex n

/-- `_ToNonEmptyStrOrNone` from the source; note Python `str(None)` is `"None"`. -/
def toNonEmptyStrOrNone (val : Option String) : String :=
  match val with
  | none => "None"
  | some s => if s = "" then "None" else s

/-- Python `str` on a boolean. -/
def pyStrBool (b : Bool) : String := if b then "True" else "False"

/-- Whether `pre` occurs at the start of `l`, character by character. -/
def listStartsWith : List Char → List Char → Bool
  | [], _ => true
  | _ :: _, [] => false
  | a :: as, b :: bs => a == b && listStartsWith as bs

/-- Python `needle in hay` on strings: contiguous-substring containment. -/
def pySubstr (needle : List Char) : List Char → Bool
  | [] => needle.isEmpty
  | h :: t => listStartsWith needle (h :: t) || pySubstr needle t

/-- Python split on a single separator character, e.g. `s.split(".")`:
splitting the empty string yields one empty piece, and separators at the
ends or adjacent to each other yield empty pieces. -/
def pySplitCh (c : Char) : List Char → List (List Char)
  | [] => [[]]
  | a :: as =>
    match pySplitCh c as with
    | [] => []
    | r :: rs => if a == c then [] :: r :: rs else (a :: r) :: rs

/-- Python `sep.join(parts)` for a single-character separator. -/
def pyJoinCh (c : Char) : List (List Char) → List Char
  | [] => []
  | [l] => l
  | l :: m :: ls => l ++ c :: pyJoinCh c (m :: ls)

/-- Python `s.split(".")` at the `String` level. -/
def pySplitDot (s : String) : List String :=
  (pySplitCh '.' s.data).map fun l => String.mk l

/-- Python `".".join(parts)` at the `String` level. -/
def pyJoinDot (parts : List String) : String :=
  String.mk (pyJoinCh '.' (parts.map String.data))

/-- A GPU device descriptor as reported by the browser (`system_info.gpu.devices[i]`).
Fields may be `None` in Python, hence `Option`. -/
structure Device where
  vendor_id : Option Nat
  device_id : Option Nat
  vendor_string : Option String
  device_string : Option String
  driver_version : Option String
  driver_vendor : Option String
  deriving DecidableEq

/-- `system_info.gpu`: the device list and the driver bug workarounds. -/
structure GpuInfo where
  devices : List Device
  driver_bug_workarounds : List String
  deriving DecidableEq

/-- The `browser.GetSystemInfo()` result (when it is not `None`). -/
structure SystemInfo where
  gpu : Option GpuInfo
  model_name : Option String
  deriving DecidableEq

/-- The per-test metadata the core reads from a GPU `PixelTestPage`.
Dates are modelled as day ordinals. -/
structure Page where
  gpu_process_disabled : Bool
  grace_period_end : Option Nat
  deriving DecidableEq

/-- `_ImageParameters` from the source. -/
structure ImageParameters where
  vendor_id : Option Nat
  device_id : Option Nat
  vendor_string : Option String
  device_string : Option String
  msaa : Bool
  model_name : Option String
  driver_version : Option String
  driver_vendor : Option String
  deriving DecidableEq

/-- The MSAA flag: true unless one of two specific workaround identifiers is
present in the reported workaround list. -/
def computeMsaa (gpu : GpuInfo) : Bool :=
  !(gpu.driver_bug_workarounds.contains "disable_chromium_framebuffer_multisample"
    || gpu.driver_bug_workarounds.contains "disable_multisample_render_to_texture")

/-- `_ComputeGpuInfo` in the no-cache case: builds `_ImageParameters` from the
browser system info and the gpu-process-disabled flag, or raises.
The four-way branch on the first device follows the source lines 227-239. -/
def computeGpuInfo (system_info : Option SystemInfo) (gpu_process_disabled : Bool) :
    Except String ImageParameters :=
  match system_info with
  | none => .error "System info must be supported by the browser"
  | some si =>
    match si.gpu with
    | none => .error "GPU information was absent"
    | some gpu =>
      match gpu.devices with
      | [] => .error "IndexError: list index out of range"
      | device :: _ =>
        if natTruthy device.vendor_id && natTruthy device.device_id then
          .ok ⟨device.vendor_id, device.device_id, none, none,
               computeMsaa gpu, si.model_name, device.driver_version,
               device.driver_vendor⟩
        else if strTruthy device.vendor_string && strTruthy device.device_string then
          .ok ⟨none, none, device.vendor_string, device.device_string,
               computeMsaa gpu, si.model_name, device.driver_version,
               device.driver_vendor⟩
        else if gpu_process_disabled then
          .ok ⟨some 65535, some 65535, none, none,
               computeMsaa gpu, si.model_name, device.driver_version,
               device.driver_vendor⟩
        else
          .error "GPU device information was incomplete"

/-- The class-level cache `cls._image_parameters`. -/
structure ClassState where
  image_parameters : Option ImageParameters
  deriving DecidableEq

/-- `ResetGpuInfo`: drops the cached parameters. -/
def resetGpuInfo (_st : ClassState) : ClassState := ⟨none⟩

/-- `GetImageParameters`: returns the cached parameters, computing them on first
use. On the raising paths the source also leaves a freshly constructed
all-`None` `_ImageParameters` object in the class cache; the error result here
models the raised exception, and no property below depends on the post-raise
cache contents. -/
def getImageParameters (st : ClassState) (system_info : Option SystemInfo) (page : Page) :
    Except String (ImageParameters × ClassState) :=
  match st.image_parameters with
  | some p => .ok (p, st)
  | none =>
    match computeGpuInfo system_info page.gpu_process_disabled with
    | .ok p => .ok (p, ⟨some p⟩)
    | .error e => .error e

/-- `_StripAngleRevisionFromDriver`. The source mutates `img_params.driver_version`
in place; modelled as returning the updated record. Python raises a `TypeError`
when `driver_vendor` is `None` (evaluating `"ANGLE" not in None`), modelled as
`none`. The break-at-first-long-part loop is `takeWhile`. -/
def stripAngleRevisionFromDriver (p : ImageParameters) : Option ImageParameters :=
  match p.driver_vendor with
  | none => none
  | some vendor =>
    if !pySubstr "ANGLE".data vendor.data || !strTruthy p.driver_version then some p
    else
      let driver_parts := pySplitDot (p.driver_version.getD "")
      let kept_parts := driver_parts.takeWhile fun part => decide (part.length ≤ 8)
      some { p with driver_version := some (pyJoinDot kept_parts) }

/-- `_GracePeriodActive`: the end date is present and today is on or before it. -/
def gracePeriodActive (today : Nat) (grace_period_end : Option Nat) : Bool :=
  match grace_period_end with
  | none => false
  | some e => decide (today ≤ e)

/-- `_ShouldReportGoldFailure`. -/
def shouldReportGoldFailure (no_skia_gold_failure : Bool) (today : Nat)
    (grace_period_end : Option Nat) : Bool :=
  if no_skia_gold_failure then false
  else if gracePeriodActive today grace_period_end then false
  else true

/-- `_GetCombinedHardwareIdentifier`: the formatted concatenation of vendor id,
device id and device string. -/
def getCombinedHardwareIdentifier (p : ImageParameters) : String :=
  "vendor_id:" ++ toHexOrNone p.vendor_id ++ ", device_id:" ++ toHexOrNone p.device_id
    ++ ", device_string:" ++ toNonEmptyStrOrNone p.device_string

/-- The key/value list built by `GetGoldJsonKeys` from already-stripped
parameters; Python dicts preserve insertion order, modelled as an ordered list. -/
def buildGoldKeys (p : ImageParameters)
    (os_name os_version_name os_version_detail : Option String)
    (page : Page) (today : Nat) : List (String × String) :=
  [("vendor_id", toHexOrNone p.vendor_id),
   ("device_id", toHexOrNone p.device_id),
   ("vendor_string", toNonEmptyStrOrNone p.vendor_string),
   ("device_string", toNonEmptyStrOrNone p.device_string),
   ("msaa", pyStrBool p.msaa),
   ("model_name", toNonEmptyStrOrNone p.model_name),
   ("os", toNonEmptyStrOrNone os_name),
   ("os_version", toNonEmptyStrOrNone os_version_name),
   ("os_version_detail_string", toNonEmptyStrOrNone os_version_detail),
   ("driver_version", toNonEmptyStrOrNone p.driver_version),
   ("driver_vendor", toNonEmptyStrOrNone p.driver_vendor),
   ("combined_hardware_identifier", getCombinedHardwareIdentifier p)]
  ++ (if gracePeriodActive today page.grace_period_end then [("ignore", "1")] else [])

/-- `GetGoldJsonKeys` on given image parameters: strip the ANGLE revision, then
build the key set from the stripped parameters. -/
def getGoldJsonKeys (p : ImageParameters)
    (os_name os_version_name os_version_detail : Option String)
    (page : Page) (today : Nat) : Option (List (String × String)) :=
  (stripAngleRevisionFromDriver p).map fun q =>
    buildGoldKeys q os_name os_version_name os_version_detail page today

/-- `GetGoldJsonKeys` acting on the class-level cache: reads (computing on first
use) the cached `_ImageParameters`, strips the ANGLE revision in place, mutating
the cached object, and returns the key set together with the new state. -/
def getGoldJsonKeysSt (st : ClassState) (system_info : Option SystemInfo) (page : Page)
    (os_name os_version_name os_version_detail : Option String) (today : Nat) :
    Except String (List (String × String) × ClassState) :=
  match getImageParameters st system_info page with
  | .error e => .error e
  | .ok (p, _st1) =>
    match stripAngleRevisionFromDriver p with
    | none => .error "TypeError: argument of type NoneType is not iterable"
    | some q =>
      .ok (buildGoldKeys q os_name os_version_name os_version_detail page today, ⟨some q⟩)

/-- The closed set of comparison status codes; the success code is falsy in the
source (`if not status: return`), and any unrecognized code lands in the final
`else` branch, carried here as raw text for the log line. -/
inductive StatusCode where
  | pass
  | auth_failure
  | init_failure
  | comparison_failure_remote
  | comparison_failure_local
  | local_diff_failure
  | unknown (raw : String)
  deriving DecidableEq

/-- Observable actions of the dispatcher: error log lines, named artifact links,
and the raised test failure. -/
inductive Event where
  | logError (msg : String)
  | createLink (name link : String)
  | raiseFailure (msg : String)
  deriving DecidableEq

/-- Python `x or y` for the local diff link strings. -/
def pyOrStr (x : Option String) (d : String) : String :=
  match x with
  | none => d
  | some s => if s = "" then d else s

/-- The three local diff links a gold session can report. -/
structure LocalDiffLinks where
  given_file : Option String
  closest_file : Option String
  diff_file : Option String
  deriving DecidableEq

/-- `_OutputLocalDiffFiles`: log the three links, substituting a fixed message
for any missing one. -/
def outputLocalDiffFiles (links : LocalDiffLinks) : List Event :=
  [.logError ("Generated image: " ++ pyOrStr links.given_file "Unable to retrieve link"),
   .logError ("Closest image: " ++ pyOrStr links.closest_file "Unable to retrieve link"),
   .logError ("Diff image: " ++ pyOrStr links.diff_file "Unable to retrieve link")]

/-- The status-code dispatch of `_UploadTestResultToSkiaGold` (source lines
362-393): the logging and artifact links emitted for a non-PASS status. -/
def dispatchEvents (status : StatusCode) (error image_name : String)
    (triage_link : Option String) (omission_reason : String) (is_tryjob : Bool)
    (links : LocalDiffLinks) : List Event :=
  match status with
  | .pass => []
  | .auth_failure => [.logError ("Gold authentication failed with output " ++ error)]
  | .init_failure => [.logError ("Gold initialization failed with output " ++ error)]
  | .comparison_failure_remote =>
    if !strTruthy triage_link then
      [.logError ("Failed to get triage link for " ++ image_name ++ ", raw output: " ++ error),
       .logError ("Reason for no triage link: " ++ omission_reason)]
    else if is_tryjob then
      [.createLink "triage_link_for_entire_cl" (triage_link.getD "")]
    else
      [.createLink "gold_triage_link" (triage_link.getD "")]
  | .comparison_failure_local =>
    .logError "Local comparison failed. Local diff files:" :: outputLocalDiffFiles links
  | .local_diff_failure =>
    .logError ("Local comparison failed and an error occurred during diff generation: " ++ error)
      :: .logError "Local diff files:" :: outputLocalDiffFiles links
  | .unknown raw =>
    [.logError ("Given unhandled SkiaGoldSession StatusCode " ++ raw ++ " with error " ++ error)]

/-- The fixed diagnostic message of the raised test failure. -/
def goldctlFailureMessage : String := "goldctl command failed, see above for details"

/-- The tail of `_UploadTestResultToSkiaGold` after the comparison returns:
nothing on PASS; otherwise the dispatch diagnostics, followed by the raised
test failure exactly when the suppression policy says to surface it. -/
def uploadTestResultToSkiaGold (status : StatusCode) (error image_name : String)
    (triage_link : Option String) (omission_reason : String) (is_tryjob : Bool)
    (links : LocalDiffLinks) (no_skia_gold_failure : Bool) (today : Nat)
    (page : Page) : List Event :=
  if status = .pass then []
  else
    dispatchEvents status error image_name triage_link omission_reason is_tryjob links
      ++ (if shouldReportGoldFailure no_skia_gold_failure today page.grace_period_end then
            [.raiseFailure goldctlFailureMessage]
          else [])

/-! Helper lemmas about the Python string-splitting model. -/

theorem pySplitCh_ne_nil (c : Char) (xs : List Char) : pySplitCh c xs ≠ [] := by
  induction xs with
  | nil => simp [pySplitCh]
  | cons a as ih =>
    simp only [pySplitCh]
    cases h : pySplitCh c as with
    | nil => exact absurd h ih
    | cons r rs =>
      by_cases hac : a == c <;> simp [hac]

theorem pySplitCh_of_not_mem (c : Char) (l : List Char) (h : c ∉ l) :
    pySplitCh c l = [l] := by
  induction l with
  | nil => rfl
  | cons a as ih =>
    simp only [List.mem_cons, not_or] at h
    have hac : (a == c) = false := by
      simp only [beq_eq_false_iff_ne]
      exact fun hc => h.1 (hc ▸ rfl)
    simp only [pySplitCh, ih h.2]
    simp [hac]

theorem pySplitCh_append_cons (c : Char) (l rest : List Char) (h : c ∉ l) :
    pySplitCh c (l ++ c :: rest) = l :: pySplitCh c rest := by
  induction l with
  | nil =>
    simp only [List.nil_append, pySplitCh]
    cases hr : pySplitCh c rest with
    | nil => exact absurd hr (pySplitCh_ne_nil c rest)
    | cons r rs => simp
  | cons a as ih =>
    simp only [List.mem_cons, not_or] at h
    have hac : (a == c) = false := by
      simp only [beq_eq_false_iff_ne]
      exact fun hc => h.1 (hc ▸ rfl)
    have hrec := ih h.2
    simp only [List.cons_append, pySplitCh, List.append_eq]
    rw [hrec]
    simp [hac]

theorem pySplitCh_pyJoinCh (c : Char) (ls : List (List Char)) (hne : ls ≠ [])
    (hmem : ∀ l ∈ ls, c ∉ l) : pySplitCh c (pyJoinCh c ls) = ls := by
  induction ls with
  | nil => exact absurd rfl hne
  | cons l ls ih =>
    cases ls with
    | nil =>
      simp only [pyJoinCh]
      exact pySplitCh_of_not_mem c l (hmem l (List.mem_cons_self l []))
    | cons m ms =>
      simp only [pyJoinCh]
      rw [pySplitCh_append_cons c l _ (hmem l (List.mem_cons_self l _))]
      rw [ih (by simp) (fun x hx => hmem x (List.mem_cons_of_mem l hx))]

theorem not_mem_of_mem_pySplitCh (c : Char) (xs l : List Char)
    (h : l ∈ pySplitCh c xs) : c ∉ l := by
  induction xs generalizing l with
  | nil =>
    simp only [pySplitCh, List.mem_singleton] at h
    subst h
    simp
  | cons a as ih =>
    simp only [pySplitCh] at h
    cases hr : pySplitCh c as with
    | nil => exact absurd hr (pySplitCh_ne_nil c as)
    | cons r rs =>
      rw [hr] at h
      by_cases hac : (a == c) = true
      · simp only [hac, if_pos] at h
        rcases List.mem_cons.mp h with h1 | h1
        · subst h1
          simp
        · exact ih l (hr ▸ h1)
      · simp only [hac, Bool.false_eq_true, if_false] at h
        rcases List.mem_cons.mp h with h1 | h1
        · subst h1
          intro hmem
          rcases List.mem_cons.mp hmem with h2 | h2
          · exact hac (by simp [h2])
          · exact ih r (hr ▸ List.mem_cons_self r rs) h2
        · exact ih l (hr ▸ List.mem_cons_of_mem r h1)

theorem mk_data_eq (s : String) : String.mk s.data = s := by
  cases s
  rfl

theorem pySplitDot_pyJoinDot (parts : List String) (hne : parts ≠ [])
    (hmem : ∀ s ∈ parts, ('.' : Char) ∉ s.data) :
    pySplitDot (pyJoinDot parts) = parts := by
  unfold pySplitDot pyJoinDot
  rw [show (String.mk (pyJoinCh '.' (parts.map String.data))).data
        = pyJoinCh '.' (parts.map String.data) from rfl]
  rw [pySplitCh_pyJoinCh '.' (parts.map String.data)
        (by simpa using hne)
        (by
          intro l hl
          rcases List.mem_map.mp hl with ⟨s, hs, rfl⟩
          exact hmem s hs)]
  rw [List.map_map]
  have : (fun l => String.mk l) ∘ String.data = id := by
    funext s
    exact mk_data_eq s
  rw [this, List.map_id]

theorem not_mem_dot_of_mem_pySplitDot (v : String) (s : String)
    (h : s ∈ pySplitDot v) : ('.' : Char) ∉ s.data := by
  unfold pySplitDot at h
  rcases List.mem_map.mp h with ⟨l, hl, rfl⟩
  exact not_mem_of_mem_pySplitCh '.' v.data l hl

theorem mem_of_mem_takeWhile {α : Type} (p : α → Bool) (l : List α) (x : α)
    (h : x ∈ l.takeWhile p) : x ∈ l := by
  induction l with
  | nil => simp at h
  | cons a as ih =>
    simp only [List.takeWhile] at h
    cases hp : p a
    · rw [hp] at h
      simp at h
    · rw [hp] at h
      rcases List.mem_cons.mp h with h1 | h1
      · exact h1 ▸ List.mem_cons_self a as
      · exact List.mem_cons_of_mem a (ih h1)

theorem pyJoinDot_nil : pyJoinDot [] = "" := rfl

/-- Core idempotence fact for the ANGLE revision stripper: a successful
application is a fixed point of the transform. -/
theorem stripAngle_idem (p q : ImageParameters)
    (h : stripAngleRevisionFromDriver p = some q) :
    stripAngleRevisionFromDriver q = some q := by
  cases hv : p.driver_vendor with
  | none =>
    unfold stripAngleRevisionFromDriver at h
    rw [hv] at h
    exact absurd h (by simp)
  | some vendor =>
    unfold stripAngleRevisionFromDriver at h
    simp only [hv] at h
    by_cases hcond : (!pySubstr "ANGLE".data vendor.data || !strTruthy p.driver_version) = true
    · rw [if_pos hcond] at h
      have hq : q = p := by injection h with h; exact h.symm
      subst hq
      simp only [stripAngleRevisionFromDriver, hv]
      rw [if_pos hcond]
    · rw [if_neg hcond] at h
      have hcond2 := hcond
      simp only [Bool.or_eq_true, Bool.not_eq_true', not_or, Bool.not_eq_false] at hcond2
      obtain ⟨hsub, htr⟩ := hcond2
      cases hver : p.driver_version with
      | none => rw [hver] at htr; simp [strTruthy] at htr
      | some s =>
        rw [hver] at htr
        simp only [strTruthy, ne_eq, bne_iff_ne] at htr
        simp only [hver, Option.getD_some] at h
        have hq : q = ⟨p.vendor_id, p.device_id, p.vendor_string, p.device_string,
            p.msaa, p.model_name,
            some (pyJoinDot ((pySplitDot s).takeWhile fun part => decide (part.length ≤ 8))),
            some vendor⟩ := by
          injection h with h; exact h.symm
        subst hq
        simp only [stripAngleRevisionFromDriver, hsub, Bool.not_true, Bool.false_or]
        by_cases hempty :
            pyJoinDot ((pySplitDot s).takeWhile fun part => decide (part.length ≤ 8)) = ""
        · simp [strTruthy, hempty]
        · have hts : strTruthy (some (pyJoinDot
              ((pySplitDot s).takeWhile fun part => decide (part.length ≤ 8)))) = true := by
            simp [strTruthy, hempty]
          simp only [hts, Bool.not_true, if_false, Option.getD_some]
          have hkne : (pySplitDot s).takeWhile (fun part => decide (part.length ≤ 8)) ≠ [] := by
            intro hk
            rw [hk] at hempty
            exact hempty rfl
          have hsplit : pySplitDot (pyJoinDot
              ((pySplitDot s).takeWhile fun part => decide (part.length ≤ 8)))
              = (pySplitDot s).takeWhile (fun part => decide (part.length ≤ 8)) := by
            refine pySplitDot_pyJoinDot _ hkne ?_
            intro x hx
            exact not_mem_dot_of_mem_pySplitDot s x (mem_of_mem_takeWhile _ _ x hx)
          rw [hsplit, List.takeWhile_idem]
          simp

/-! Helper lemmas about hexadecimal rendering. -/

theorem hexDigit_not_upper (k : Nat) (hk : k < 16) : (hexDigit k).isUpper = false := by
  interval_cases k <;> decide

theorem hexDigitsAux_not_upper (fuel n : Nat) (c : Char)
    (h : c ∈ hexDigitsAux fuel n) : c.isUpper = false := by
  induction fuel generalizing n with
  | zero => simp [hexDigitsAux] at h
  | succ fuel ih =>
    simp only [hexDigitsAux] at h
    by_cases hn : n = 0
    · simp [hn] at h
    · rw [if_neg hn] at h
      rcases List.mem_append.mp h with h1 | h1
      · exact ih (n / 16) h1
      · rw [List.mem_singleton] at h1
        exact h1 ▸ hexDigit_not_upper (n % 16) (Nat.mod_lt n (by decide))

theorem pyHex_not_upper (n : Nat) (c : Char) (h : c ∈ (pyHex n).data) :
    c.isUpper = false := by
  unfold pyHex at h
  by_cases hn : n = 0
  · rw [if_pos hn] at h
    fin_cases h <;> decide
  · rw [if_neg hn] at h
    have : ("0x" ++ String.mk (hexDigits n)).data = '0' :: 'x' :: hexDigits n := rfl
    rw [this] at h
    rcases List.mem_cons.mp h with h1 | h1
    · rw [h1]; decide
    · rcases List.mem_cons.mp h1 with h2 | h2
      · rw [h2]; decide
      · exact hexDigitsAux_not_upper n n c h2

theorem string_ne_empty_of_data_ne_nil (s : String) (h : s.data ≠ []) : s ≠ "" := by
  intro he
  subst he
  exact h rfl

theorem pyHex_ne_empty (n : Nat) : pyHex n ≠ "" := by
  unfold pyHex
  by_cases hn : n = 0
  · rw [if_pos hn]; decide
  · rw [if_neg hn]
    exact string_ne_empty_of_data_ne_nil _ (by
      show ('0' :: 'x' :: hexDigits n) ≠ []
      simp)

theorem toHexOrNone_ne_empty (o : Option Nat) : toHexOrNone o ≠ "" := by
  cases o with
  | none => simp [toHexOrNone]
  | some n => exact pyHex_ne_empty n

theorem toNonEmptyStrOrNone_ne_empty (o : Option String) : toNonEmptyStrOrNone o ≠ "" := by
  cases o with
  | none => simp [toNonEmptyStrOrNone]
  | some s =>
    unfold toNonEmptyStrOrNone
    by_cases hs : s = ""
    · simp [hs]
    · simp [hs]

theorem pyStrBool_ne_empty (b : Bool) : pyStrBool b ≠ "" := by
  cases b <;> simp [pyStrBool]

theorem combined_ne_empty (p : ImageParameters) :
    getCombinedHardwareIdentifier p ≠ "" := by
  unfold getCombinedHardwareIdentifier
  apply string_ne_empty_of_data_ne_nil
  rw [String.data_append, String.data_append, String.data_append,
      String.data_append, String.data_append]
  simp [String.data]

/-! Helper lemmas about the outcome dispatcher. -/

/-- Whether an event is the raised test failure. -/
def isRaiseFailure : Event → Bool
  | .raiseFailure _ => true
  | _ => false

theorem outputLocalDiffFiles_no_raise (links : LocalDiffLinks) (e : Event)
    (h : e ∈ outputLocalDiffFiles links) : isRaiseFailure e = false := by
  unfold outputLocalDiffFiles at h
  fin_cases h <;> rfl

theorem dispatchEvents_no_raise (status : StatusCode) (error image_name : String)
    (triage_link : Option String) (omission_reason : String) (is_tryjob : Bool)
    (links : LocalDiffLinks) (e : Event)
    (h : e ∈ dispatchEvents status error image_name triage_link omission_reason
      is_tryjob links) : isRaiseFailure e = false := by
  unfold dispatchEvents at h
  cases status with
  | pass => simp at h
  | auth_failure => rw [List.mem_singleton] at h; subst h; rfl
  | init_failure => rw [List.mem_singleton] at h; subst h; rfl
  | comparison_failure_remote =>
    by_cases ht : (!strTruthy triage_link) = true
    · rw [if_pos ht] at h
      fin_cases h <;> rfl
    · rw [if_neg ht] at h
      by_cases hj : is_tryjob
      · rw [if_pos hj, List.mem_singleton] at h; subst h; rfl
      · rw [if_neg hj, List.mem_singleton] at h; subst h; rfl
  | comparison_failure_local =>
    rcases List.mem_cons.mp h with h1 | h1
    · subst h1; rfl
    · exact outputLocalDiffFiles_no_raise links e h1
  | local_diff_failure =>
    rcases List.mem_cons.mp h with h1 | h1
    · subst h1; rfl
    · rcases List.mem_cons.mp h1 with h2 | h2
      · subst h2; rfl
      · exact outputLocalDiffFiles_no_raise links e h2
  | unknown raw => rw [List.mem_singleton] at h; subst h; rfl

theorem dispatchEvents_ne_nil (status : StatusCode) (error image_name : String)
    (triage_link : Option String) (omission_reason : String) (is_tryjob : Bool)
    (links : LocalDiffLinks) (hs : status ≠ .pass) :
    dispatchEvents status error image_name triage_link omission_reason
      is_tryjob links ≠ [] := by
  unfold dispatchEvents
  cases status with
  | pass => exact absurd rfl hs
  | auth_failure => simp
  | init_failure => simp
  | comparison_failure_remote =>
    by_cases ht : (!strTruthy triage_link) = true
    · simp [ht]
    · rw [if_neg ht]
      by_cases hj : is_tryjob <;> simp [hj]
  | comparison_failure_local => simp
  | local_diff_failure => simp
  | unknown raw => simp

/-! Claim theorems. -/

/-- C1: the Identity Key Builder selects the identity source by a fixed
four-way precedence. If vendor id and device id are both present (truthy),
they are copied into the identity, hex-encoded by the key renderer, and the
string and sentinel branches are not taken; else if vendor and device strings
are both present, those are used; else if the GPU process was disabled, the
reserved sentinel ids 0xffff/0xffff are used; else the computation fails with
the message "GPU device information was incomplete". -/
theorem c1_identity_precedence (d : Device) (rest : List Device) (wk : List String)
    (mn : Option String) (g : Bool) :
    ((natTruthy d.vendor_id && natTruthy d.device_id) = true →
      computeGpuInfo (some ⟨some ⟨d :: rest, wk⟩, mn⟩) g
        = .ok ⟨d.vendor_id, d.device_id, none, none, computeMsaa ⟨d :: rest, wk⟩, mn,
               d.driver_version, d.driver_vendor⟩)
    ∧ (∀ n, d.vendor_id = some n → toHexOrNone d.vendor_id = pyHex n)
    ∧ (∀ n, d.device_id = some n → toHexOrNone d.device_id = pyHex n)
    ∧ ((natTruthy d.vendor_id && natTruthy d.device_id) = false →
       (strTruthy d.vendor_string && strTruthy d.device_string) = true →
       computeGpuInfo (some ⟨some ⟨d :: rest, wk⟩, mn⟩) g
         = .ok ⟨none, none, d.vendor_string, d.device_string, computeMsaa ⟨d :: rest, wk⟩,
                mn, d.driver_version, d.driver_vendor⟩)
    ∧ ((natTruthy d.vendor_id && natTruthy d.device_id) = false →
       (strTruthy d.vendor_string && strTruthy d.device_string) = false →
       g = true →
       computeGpuInfo (some ⟨some ⟨d :: rest, wk⟩, mn⟩) g
         = .ok ⟨some 65535, some 65535, none, none, computeMsaa ⟨d :: rest, wk⟩,
                mn, d.driver_version, d.driver_vendor⟩
         ∧ toHexOrNone (some 65535) = "0xffff")
    ∧ ((natTruthy d.vendor_id && natTruthy d.device_id) = false →
       (strTruthy d.vendor_string && strTruthy d.device_string) = false →
       g = false →
       computeGpuInfo (some ⟨some ⟨d :: rest, wk⟩, mn⟩) g
         = .error "GPU device information was incomplete") := by
  refine ⟨?_, ?_, ?_, ?_, ?_, ?_⟩
  · intro h1
    simp [computeGpuInfo, h1]
  · intro n hn
    rw [hn]
    rfl
  · intro n hn
    rw [hn]
    rfl
  · intro h1 h2
    simp [computeGpuInfo, h1, h2]
  · intro h1 h2 hg
    subst hg
    refine ⟨by simp [computeGpuInfo, h1, h2], by decide⟩
  · intro h1 h2 hg
    subst hg
    simp [computeGpuInfo, h1, h2]

/-- Witness for C1 at the spec scenario device 0x8086/0x5912: the id branch is
taken and the ids are copied verbatim into the identity. -/
theorem c1_identity_precedence_witness :
    computeGpuInfo (some ⟨some ⟨[⟨some 32902, some 22802, none, none, some "10.0", some "Intel"⟩],
        []⟩, none⟩) false
      = .ok ⟨some 32902, some 22802, none, none, true, none, some "10.0", some "Intel"⟩
    ∧ toHexOrNone (some 32902) = pyHex 32902 :=
  ⟨(c1_identity_precedence ⟨some 32902, some 22802, none, none, some "10.0", some "Intel"⟩
      [] [] none false).1 rfl,
   (c1_identity_precedence ⟨some 32902, some 22802, none, none, some "10.0", some "Intel"⟩
      [] [] none false).2.1 32902 rfl⟩

/-- C2: for every non-PASS outcome, the suppression decision returns false
whenever the global bypass flag is set, regardless of the grace period; when
the bypass flag is unset and the grace period is inactive it returns true and
the upload routine ends by raising the fixed diagnostic failure; with the
bypass flag set, no failure is ever raised. -/
theorem c2_suppression_policy :
    (∀ today gpe, shouldReportGoldFailure true today gpe = false)
    ∧ (∀ today gpe, gracePeriodActive today gpe = false →
        shouldReportGoldFailure false today gpe = true)
    ∧ (∀ status error image_name triage_link omission_reason is_tryjob links today
        (page : Page),
        status ≠ StatusCode.pass →
        gracePeriodActive today page.grace_period_end = false →
        uploadTestResultToSkiaGold status error image_name triage_link omission_reason
            is_tryjob links false today page
          = dispatchEvents status error image_name triage_link omission_reason is_tryjob links
            ++ [Event.raiseFailure goldctlFailureMessage])
    ∧ (∀ status error image_name triage_link omission_reason is_tryjob links today
        (page : Page) (m : String),
        Event.raiseFailure m ∉ uploadTestResultToSkiaGold status error image_name triage_link
          omission_reason is_tryjob links true today page) := by
  refine ⟨?_, ?_, ?_, ?_⟩
  · intro today gpe
    rfl
  · intro today gpe h
    simp [shouldReportGoldFailure, h]
  · intro status error image_name triage_link omission_reason is_tryjob links today page hs hg
    simp [uploadTestResultToSkiaGold, hs, shouldReportGoldFailure, hg]
  · intro status error image_name triage_link omission_reason is_tryjob links today page m
    by_cases hs : status = StatusCode.pass
    · simp [uploadTestResultToSkiaGold, hs]
    · have h0 : shouldReportGoldFailure true today page.grace_period_end = false := rfl
      simp only [uploadTestResultToSkiaGold, hs, h0, Bool.false_eq_true, if_false,
        List.append_nil]
      intro hmem
      have := dispatchEvents_no_raise status error image_name triage_link omission_reason
        is_tryjob links _ hmem
      simp [isRaiseFailure] at this

/-- Witness for C2: with the bypass flag unset and no grace period, an
authentication failure ends in the raised fixed diagnostic. -/
theorem c2_suppression_policy_witness :
    uploadTestResultToSkiaGold StatusCode.auth_failure "err" "img" none "r" false
        ⟨none, none, none⟩ false 0 ⟨false, none⟩
      = dispatchEvents StatusCode.auth_failure "err" "img" none "r" false ⟨none, none, none⟩
        ++ [Event.raiseFailure goldctlFailureMessage] :=
  c2_suppression_policy.2.2.1 StatusCode.auth_failure "err" "img" none "r" false
    ⟨none, none, none⟩ 0 ⟨false, none⟩ (by decide) rfl

/-- C3: the grace period is active iff an end date is present and today is on
or before it; with the bypass flag unset, an end date equal to today suppresses
the failure and an end date equal to yesterday surfaces it: the boundary is at
exact date equality. -/
theorem c3_grace_period_boundary :
    (∀ today, gracePeriodActive today none = false)
    ∧ (∀ today e, gracePeriodActive today (some e) = true ↔ today ≤ e)
    ∧ (∀ today, shouldReportGoldFailure false today (some today) = false)
    ∧ (∀ today, 0 < today →
        shouldReportGoldFailure false today (some (today - 1)) = true) := by
  refine ⟨?_, ?_, ?_, ?_⟩
  · intro today
    rfl
  · intro today e
    simp [gracePeriodActive]
  · intro today
    simp [shouldReportGoldFailure, gracePeriodActive]
  · intro today ht
    have hlt : ¬(today ≤ today - 1) := by omega
    simp [shouldReportGoldFailure, gracePeriodActive, hlt]

/-- Witness for C3 at day 1: end date 1 suppresses, end date 0 surfaces. -/
theorem c3_grace_period_boundary_witness :
    shouldReportGoldFailure false 1 (some 1) = false
    ∧ shouldReportGoldFailure false 1 (some 0) = true :=
  ⟨c3_grace_period_boundary.2.2.1 1, c3_grace_period_boundary.2.2.2 1 (by decide)⟩

/-- C4: the driver-version truncation transform is idempotent (in the model a
failed first application, which only happens for a `None` driver vendor, stays
failed, and a successful result is a fixed point), and it is a no-op when the
driver vendor string does not contain "ANGLE" or when the driver-version string
is empty or absent. -/
theorem c4_strip_idempotent_noop (p : ImageParameters) :
    ((stripAngleRevisionFromDriver p).bind stripAngleRevisionFromDriver
      = stripAngleRevisionFromDriver p)
    ∧ (∀ v, p.driver_vendor = some v → pySubstr "ANGLE".data v.data = false →
        stripAngleRevisionFromDriver p = some p)
    ∧ (∀ v, p.driver_vendor = some v →
        (p.driver_version = none ∨ p.driver_version = some "") →
        stripAngleRevisionFromDriver p = some p) := by
  refine ⟨?_, ?_, ?_⟩
  · cases h : stripAngleRevisionFromDriver p with
    | none => rfl
    | some q =>
      exact stripAngle_idem p q h
  · intro v hv hsub
    simp [stripAngleRevisionFromDriver, hv, hsub]
  · intro v hv hver
    rcases hver with hver | hver <;>
      simp [stripAngleRevisionFromDriver, hv, hver, strTruthy]

/-- Witness for C4: a non-ANGLE vendor is left unmodified. -/
theorem c4_strip_idempotent_noop_witness :
    stripAngleRevisionFromDriver
        ⟨none, none, none, none, false, none, some "1.2.3.456789012", some "Intel"⟩
      = some ⟨none, none, none, none, false, none, some "1.2.3.456789012", some "Intel"⟩ :=
  (c4_strip_idempotent_noop
      ⟨none, none, none, none, false, none, some "1.2.3.456789012", some "Intel"⟩).2.1
    "Intel" rfl (by decide)

/-- Projection of the class state after a key-set build, for stating state
(in)equality on the cached identity. -/
def stateAfterGoldKeys (r : Except String (List (String × String) × ClassState)) :
    Option ClassState :=
  match r with
  | .ok (_, st) => some st
  | .error _ => none

/-- C5 counterexample: with an ANGLE driver and a long revision part cached,
one call to the key-set builder changes the cached identity in place (the
driver_version field is truncated), so the claim that no core operation
mutates the cached identity after first computation is false. -/
theorem c5_counterexample_cache_mutated :
    stateAfterGoldKeys (getGoldJsonKeysSt
        ⟨some ⟨some 1, some 2, none, none, false, none,
          some "2.1.0.b50541b2d6c4", some "ANGLE"⟩⟩
        none ⟨false, none⟩ none none none 0)
      ≠ some ⟨some ⟨some 1, some 2, none, none, false, none,
          some "2.1.0.b50541b2d6c4", some "ANGLE"⟩⟩ := by
  decide

/-- C5 amended: the pure accessor returns the cached identity unchanged; the
key-set builder may mutate the cached identity once, via the idempotent ANGLE
driver-version truncation, so any key-set build is a fixed point: repeating it
returns the same keys and leaves the cache unchanged; and only the explicit
reset clears the cache. -/
theorem c5_cache_stable_after_first_build :
    (∀ (st : ClassState) (p : ImageParameters) system_info page,
        st.image_parameters = some p →
        getImageParameters st system_info page = .ok (p, st))
    ∧ (∀ st system_info page os1 os2 os3 today ks st',
        getGoldJsonKeysSt st system_info page os1 os2 os3 today = .ok (ks, st') →
        getGoldJsonKeysSt st' system_info page os1 os2 os3 today = .ok (ks, st'))
    ∧ (∀ st, resetGpuInfo st = ⟨none⟩) := by
  refine ⟨?_, ?_, ?_⟩
  · intro st p system_info page h
    cases st with
    | mk ip =>
      cases ip with
      | none => simp at h
      | some p0 =>
        have hp : p0 = p := by injection h
        subst hp
        rfl
  · intro st system_info page os1 os2 os3 today ks st' h
    unfold getGoldJsonKeysSt at h
    cases hgi : getImageParameters st system_info page with
    | error e =>
      rw [hgi] at h
      exact absurd h (by simp)
    | ok pr =>
      obtain ⟨p, st1⟩ := pr
      simp only [hgi] at h
      cases hst : stripAngleRevisionFromDriver p with
      | none =>
        simp only [hst] at h
        exact absurd h (by simp)
      | some q =>
        simp only [hst] at h
        simp only [Except.ok.injEq, Prod.mk.injEq] at h
        obtain ⟨hks, hst'⟩ := h
        subst hks
        subst hst'
        unfold getGoldJsonKeysSt
        have hgi2 : getImageParameters (⟨some q⟩ : ClassState) system_info page
            = .ok (q, ⟨some q⟩) := rfl
        simp only [hgi2, stripAngle_idem p q hst]
  · intro st
    rfl

/-- Witness for C5 amended: repeating the key-set build on the state left by a
first build over an ANGLE driver returns the same keys and state. -/
theorem c5_cache_stable_after_first_build_witness :
    getGoldJsonKeysSt
        ⟨some ⟨some 1, some 2, none, none, false, none, some "2.1.0", some "ANGLE"⟩⟩
        none ⟨false, none⟩ none none none 0
      = .ok (buildGoldKeys ⟨some 1, some 2, none, none, false, none, some "2.1.0", some "ANGLE"⟩
          none none none ⟨false, none⟩ 0,
        ⟨some ⟨some 1, some 2, none, none, false, none, some "2.1.0", some "ANGLE"⟩⟩) :=
  c5_cache_stable_after_first_build.2.1
    ⟨some ⟨some 1, some 2, none, none, false, none, some "2.1.0.b50541b2d6c4", some "ANGLE"⟩⟩
    none ⟨false, none⟩ none none none 0 _ _ (by decide)

/-- C6: for every non-PASS outcome the upload routine emits the dispatch
diagnostics unconditionally and before the suppression policy contributes the
failure event: the event trace is the (nonempty, failure-free) dispatch block
followed by the raised failure exactly when the policy surfaces it, so
diagnostics are emitted even when the failure is suppressed. -/
theorem c6_diagnostics_before_failure (status : StatusCode) (error image_name : String)
    (triage_link : Option String) (omission_reason : String) (is_tryjob : Bool)
    (links : LocalDiffLinks) (no_skia_gold_failure : Bool) (today : Nat) (page : Page)
    (hs : status ≠ StatusCode.pass) :
    uploadTestResultToSkiaGold status error image_name triage_link omission_reason
        is_tryjob links no_skia_gold_failure today page
      = dispatchEvents status error image_name triage_link omission_reason is_tryjob links
        ++ (if shouldReportGoldFailure no_skia_gold_failure today page.grace_period_end
            then [Event.raiseFailure goldctlFailureMessage] else [])
    ∧ dispatchEvents status error image_name triage_link omission_reason is_tryjob links ≠ []
    ∧ (∀ e ∈ dispatchEvents status error image_name triage_link omission_reason
          is_tryjob links, isRaiseFailure e = false) := by
  refine ⟨?_, ?_, ?_⟩
  · simp [uploadTestResultToSkiaGold, hs]
  · exact dispatchEvents_ne_nil status error image_name triage_link omission_reason
      is_tryjob links hs
  · intro e he
    exact dispatchEvents_no_raise status error image_name triage_link omission_reason
      is_tryjob links e he

/-- Witness for C6: a suppressed authentication failure still emits its log
line, and the trace is exactly the dispatch block. -/
theorem c6_diagnostics_before_failure_witness :
    uploadTestResultToSkiaGold StatusCode.auth_failure "err" "img" none "r" false
        ⟨none, none, none⟩ true 0 ⟨false, none⟩
      = dispatchEvents StatusCode.auth_failure "err" "img" none "r" false ⟨none, none, none⟩
        ++ (if shouldReportGoldFailure true 0 (Page.mk false none).grace_period_end
            then [Event.raiseFailure goldctlFailureMessage] else [])
    ∧ dispatchEvents StatusCode.auth_failure "err" "img" none "r" false ⟨none, none, none⟩ ≠ []
    ∧ (∀ e ∈ dispatchEvents StatusCode.auth_failure "err" "img" none "r" false
          ⟨none, none, none⟩, isRaiseFailure e = false) :=
  c6_diagnostics_before_failure StatusCode.auth_failure "err" "img" none "r" false
    ⟨none, none, none⟩ true 0 ⟨false, none⟩ (by decide)

/-- C7: on a remote-mismatch outcome, if no triage link is obtainable the
dispatcher logs the failure and the omission reason and records no link
artifact; if a link is found it records exactly one named artifact link, the
aggregate per-change-list link on a tryjob run and the per-image link
otherwise. -/
theorem c7_remote_mismatch_links (error image_name : String)
    (triage_link : Option String) (omission_reason : String) (is_tryjob : Bool)
    (links : LocalDiffLinks) :
    (strTruthy triage_link = false →
      dispatchEvents StatusCode.comparison_failure_remote error image_name triage_link
          omission_reason is_tryjob links
        = [Event.logError ("Failed to get triage link for " ++ image_name
             ++ ", raw output: " ++ error),
           Event.logError ("Reason for no triage link: " ++ omission_reason)]
      ∧ ∀ e ∈ dispatchEvents StatusCode.comparison_failure_remote error image_name
          triage_link omission_reason is_tryjob links, ∀ nm l, e ≠ Event.createLink nm l)
    ∧ (∀ l, triage_link = some l → l ≠ "" → is_tryjob = true →
        dispatchEvents StatusCode.comparison_failure_remote error image_name triage_link
            omission_reason is_tryjob links
          = [Event.createLink "triage_link_for_entire_cl" l])
    ∧ (∀ l, triage_link = some l → l ≠ "" → is_tryjob = false →
        dispatchEvents StatusCode.comparison_failure_remote error image_name triage_link
            omission_reason is_tryjob links
          = [Event.createLink "gold_triage_link" l]) := by
  refine ⟨?_, ?_, ?_⟩
  · intro h
    have heq : dispatchEvents StatusCode.comparison_failure_remote error image_name
        triage_link omission_reason is_tryjob links
        = [Event.logError ("Failed to get triage link for " ++ image_name
             ++ ", raw output: " ++ error),
           Event.logError ("Reason for no triage link: " ++ omission_reason)] := by
      simp [dispatchEvents, h]
    refine ⟨heq, ?_⟩
    intro e he nm l
    rw [heq] at he
    rcases List.mem_cons.mp he with h1 | h1
    · subst h1
      simp
    · rw [List.mem_singleton] at h1
      subst h1
      simp
  · intro l hl hne hj
    subst hj
    simp [dispatchEvents, hl, strTruthy, hne]
  · intro l hl hne hj
    subst hj
    simp [dispatchEvents, hl, strTruthy, hne]

/-- Witness for C7: with no triage link, the two omission log lines are the
whole dispatch and no link artifact is recorded; with a link on a tryjob run,
exactly the aggregate link is recorded. -/
theorem c7_remote_mismatch_links_witness :
    dispatchEvents StatusCode.comparison_failure_remote "e" "i" none "reason" false
        ⟨none, none, none⟩
      = [Event.logError ("Failed to get triage link for " ++ "i" ++ ", raw output: " ++ "e"),
         Event.logError ("Reason for no triage link: " ++ "reason")]
    ∧ dispatchEvents StatusCode.comparison_failure_remote "e" "i" (some "L") "reason" true
        ⟨none, none, none⟩
      = [Event.createLink "triage_link_for_entire_cl" "L"] :=
  ⟨(c7_remote_mismatch_links "e" "i" none "reason" false ⟨none, none, none⟩).1 rfl |>.1,
   (c7_remote_mismatch_links "e" "i" (some "L") "reason" true ⟨none, none, none⟩).2.1
     "L" rfl (by decide) rfl⟩

/-- The id renderer yields the sentinel "None" or a hexadecimal rendering. -/
theorem toHexOrNone_none_or_hex (o : Option Nat) :
    toHexOrNone o = "None" ∨ ∃ n, toHexOrNone o = pyHex n := by
  cases o with
  | none => exact Or.inl rfl
  | some n => exact Or.inr ⟨n, rfl⟩

/-- C8: whenever the key-set builder succeeds, the emitted key set contains the
("ignore", "1") marker exactly when the grace period is active at build time:
present for an active grace period, and no "ignore" key at all otherwise. -/
theorem c8_ignore_marker (p : ImageParameters) (os1 os2 os3 : Option String)
    (page : Page) (today : Nat) (ks : List (String × String))
    (h : getGoldJsonKeys p os1 os2 os3 page today = some ks) :
    (gracePeriodActive today page.grace_period_end = true → ("ignore", "1") ∈ ks)
    ∧ (gracePeriodActive today page.grace_period_end = false →
        ∀ v, ("ignore", v) ∉ ks) := by
  unfold getGoldJsonKeys at h
  cases hq : stripAngleRevisionFromDriver p with
  | none =>
    rw [hq] at h
    exact absurd h (by simp)
  | some q =>
    rw [hq] at h
    simp only [Option.map_some', Option.some.injEq] at h
    subst h
    constructor
    · intro hg
      simp [buildGoldKeys, hg]
    · intro hg v
      simp [buildGoldKeys, hg]

/-- Witness for C8: at day 3 with grace period ending day 5, the marker is in
the key set. -/
theorem c8_ignore_marker_witness :
    ("ignore", "1") ∈ buildGoldKeys
        ⟨some 1, some 2, none, none, false, none, some "1.0", some "Intel"⟩
        none none none ⟨false, some 5⟩ 3 :=
  (c8_ignore_marker ⟨some 1, some 2, none, none, false, none, some "1.0", some "Intel"⟩
      none none none ⟨false, some 5⟩ 3 _ rfl).1 rfl

/-- C9: whenever the key-set builder succeeds, every value in the emitted key
set is a non-empty string; the vendor and device id values are either the
literal sentinel "None" or a hexadecimal rendering, which never contains an
uppercase character; and absent or empty raw fields are rendered as the
literal "None". -/
theorem c9_values_nonempty (p : ImageParameters) (os1 os2 os3 : Option String)
    (page : Page) (today : Nat) (ks : List (String × String))
    (h : getGoldJsonKeys p os1 os2 os3 page today = some ks) :
    (∀ kv ∈ ks, kv.2 ≠ "")
    ∧ (∀ kv ∈ ks, (kv.1 = "vendor_id" ∨ kv.1 = "device_id") →
        kv.2 = "None" ∨ ∃ n, kv.2 = pyHex n)
    ∧ (∀ n c, c ∈ (pyHex n).data → c.isUpper = false)
    ∧ (toHexOrNone none = "None" ∧ toNonEmptyStrOrNone none = "None"
        ∧ toNonEmptyStrOrNone (some "") = "None") := by
  unfold getGoldJsonKeys at h
  cases hq : stripAngleRevisionFromDriver p with
  | none =>
    rw [hq] at h
    exact absurd h (by simp)
  | some q =>
    rw [hq] at h
    simp only [Option.map_some', Option.some.injEq] at h
    subst h
    refine ⟨?_, ?_, ?_, rfl, rfl, rfl⟩
    · intro kv hkv
      by_cases hg : gracePeriodActive today page.grace_period_end = true
      · simp only [buildGoldKeys, hg, if_true, List.mem_append, List.mem_cons,
          List.mem_singleton, List.not_mem_nil, or_false] at hkv
        rcases hkv with (rfl|rfl|rfl|rfl|rfl|rfl|rfl|rfl|rfl|rfl|rfl|rfl)|rfl <;>
          first
          | exact toHexOrNone_ne_empty _
          | exact toNonEmptyStrOrNone_ne_empty _
          | exact pyStrBool_ne_empty _
          | exact combined_ne_empty _
          | decide
      · have hg0 : gracePeriodActive today page.grace_period_end = false := by
          rwa [Bool.not_eq_true] at hg
        simp only [buildGoldKeys, hg0, Bool.false_eq_true, if_false, List.append_nil,
          List.mem_cons, List.mem_singleton, List.not_mem_nil, or_false] at hkv
        rcases hkv with rfl|rfl|rfl|rfl|rfl|rfl|rfl|rfl|rfl|rfl|rfl|rfl <;>
          first
          | exact toHexOrNone_ne_empty _
          | exact toNonEmptyStrOrNone_ne_empty _
          | exact pyStrBool_ne_empty _
          | exact combined_ne_empty _
    · intro kv hkv hkey
      by_cases hg : gracePeriodActive today page.grace_period_end = true
      · simp only [buildGoldKeys, hg, if_true, List.mem_append, List.mem_cons,
          List.mem_singleton, List.not_mem_nil, or_false] at hkv
        rcases hkv with (rfl|rfl|rfl|rfl|rfl|rfl|rfl|rfl|rfl|rfl|rfl|rfl)|rfl <;>
          first
          | exact toHexOrNone_none_or_hex _
          | exact absurd hkey (by simp)
      · have hg0 : gracePeriodActive today page.grace_period_end = false := by
          rwa [Bool.not_eq_true] at hg
        simp only [buildGoldKeys, hg0, Bool.false_eq_true, if_false, List.append_nil,
          List.mem_cons, List.mem_singleton, List.not_mem_nil, or_false] at hkv
        rcases hkv with rfl|rfl|rfl|rfl|rfl|rfl|rfl|rfl|rfl|rfl|rfl|rfl <;>
          first
          | exact toHexOrNone_none_or_hex _
          | exact absurd hkey (by simp)
    · intro n c hc
      exact pyHex_not_upper n c hc

/-- Witness for C9: on a concrete successful build, the "os" value (absent OS
name) is the non-empty sentinel "None". -/
theorem c9_values_nonempty_witness :
    ("os", "None").2 ≠ "" :=
  (c9_values_nonempty ⟨some 1, some 2, none, none, false, none, some "1.0", some "Intel"⟩
      none none none ⟨false, none⟩ 0 _ rfl).1 ("os", "None")
    (by decide)

/-- Python truthiness turns a reported id of 0 into an absent id; this scrub
realizes that equivalence for the C10 statement. -/
def scrubZeroId (o : Option Nat) : Option Nat :=
  if o = some 0 then none else o

theorem natTruthy_scrubZeroId (o : Option Nat) :
    natTruthy (scrubZeroId o) = natTruthy o := by
  cases o with
  | none => rfl
  | some n =>
    by_cases hn : n = 0
    · subst hn
      decide
    · simp [scrubZeroId, hn, natTruthy]

theorem scrubZeroId_of_truthy (o : Option Nat) (h : natTruthy o = true) :
    scrubZeroId o = o := by
  cases o with
  | none => rfl
  | some n =>
    simp only [natTruthy, bne_iff_ne, ne_eq] at h
    simp [scrubZeroId, h]

/-- C10: a device descriptor reporting a vendor or device id equal to 0 is
treated as if that id were absent: replacing reported-zero ids by absent ids
never changes the computed identity, the id branch is taken only when both ids
are non-`None` and non-zero, and on a reported zero id a successful identity
renders the id values only as "None" or as the software sentinel "0xffff",
never as "0x0". -/
theorem c10_zero_id_treated_as_absent (d : Device) (rest : List Device)
    (wk : List String) (mn : Option String) (g : Bool) :
    (computeGpuInfo (some ⟨some ⟨⟨scrubZeroId d.vendor_id, scrubZeroId d.device_id,
          d.vendor_string, d.device_string, d.driver_version, d.driver_vendor⟩ :: rest,
        wk⟩, mn⟩) g
      = computeGpuInfo (some ⟨some ⟨d :: rest, wk⟩, mn⟩) g)
    ∧ (natTruthy d.vendor_id = true ↔ ∃ n, d.vendor_id = some n ∧ n ≠ 0)
    ∧ ((d.vendor_id = some 0 ∨ d.device_id = some 0) →
       ∀ p, computeGpuInfo (some ⟨some ⟨d :: rest, wk⟩, mn⟩) g = .ok p →
         (toHexOrNone p.vendor_id = "None" ∨ toHexOrNone p.vendor_id = "0xffff")
         ∧ (toHexOrNone p.device_id = "None" ∨ toHexOrNone p.device_id = "0xffff")) := by
  refine ⟨?_, ?_, ?_⟩
  · by_cases hid : (natTruthy d.vendor_id && natTruthy d.device_id) = true
    · have h12 := hid
      rw [Bool.and_eq_true] at h12
      obtain ⟨h1, h2⟩ := h12
      simp [computeGpuInfo, computeMsaa, natTruthy_scrubZeroId, hid,
        scrubZeroId_of_truthy _ h1, scrubZeroId_of_truthy _ h2]
    · have hid0 : (natTruthy d.vendor_id && natTruthy d.device_id) = false := by
        rwa [Bool.not_eq_true] at hid
      simp [computeGpuInfo, computeMsaa, natTruthy_scrubZeroId, hid0]
  · constructor
    · intro h
      cases hv : d.vendor_id with
      | none => rw [hv] at h; exact absurd h (by decide)
      | some n =>
        rw [hv] at h
        simp only [natTruthy, bne_iff_ne, ne_eq] at h
        exact ⟨n, rfl, h⟩
    · rintro ⟨n, hn, hne⟩
      rw [hn]
      simp [natTruthy, hne]
  · intro hz p hp
    have hid : (natTruthy d.vendor_id && natTruthy d.device_id) = false := by
      rcases hz with hz | hz <;> rw [hz] <;> simp [natTruthy]
    simp only [computeGpuInfo, hid, Bool.false_eq_true, if_false] at hp
    by_cases hstr : (strTruthy d.vendor_string && strTruthy d.device_string) = true
    · rw [if_pos hstr] at hp
      injection hp with hp
      subst hp
      exact ⟨Or.inl rfl, Or.inl rfl⟩
    · rw [if_neg hstr] at hp
      by_cases hg : g = true
      · rw [if_pos hg] at hp
        injection hp with hp
        subst hp
        exact ⟨Or.inr (show toHexOrNone (some 65535) = "0xffff" by decide),
               Or.inr (show toHexOrNone (some 65535) = "0xffff" by decide)⟩
      · have hg0 : g = false := by
          cases g
          · rfl
          · exact absurd rfl hg
        rw [hg0] at hp
        simp at hp

/-- Witness for C10: a device reporting vendor id 0 with usable device strings
falls through to the string branch, and the rendered id values are "None". -/
theorem c10_zero_id_treated_as_absent_witness :
    (toHexOrNone (none : Option Nat) = "None" ∨ toHexOrNone (none : Option Nat) = "0xffff")
    ∧ (toHexOrNone (none : Option Nat) = "None"
        ∨ toHexOrNone (none : Option Nat) = "0xffff") :=
  (c10_zero_id_treated_as_absent ⟨some 0, some 5, some "vstr", some "dstr", none, some "drv"⟩
      [] [] none false).2.2 (Or.inl rfl)
    ⟨none, none, some "vstr", some "dstr", true, none, none, some "drv"⟩ (by decide)

end SkiaGold
